import Mathlib

/-
  Verification of the labdevices repository: a shallow embedding of the
  driver code (stepper-motor unit conversion, oscilloscope waveform and
  preamble decoding, address validation, close() behaviour, and the
  Pfeiffer gauge command phase), with theorems settling the spec claims.

  Python floats are modelled as exact rationals, Python ints as ℤ, raised
  exceptions as `Except PyErr`.  Device transports are modelled as pure
  oracles `String → String` mapping a query command to the reply string.
-/

namespace LabDevices

/-- Python exception values raised by the drivers.  `keyErr` carries the
missing integer key (the code raises `KeyError(code)` via a dict lookup). -/
inductive PyErr where
  | exc (msg : String)       -- bare Exception(msg)
  | valueErr (msg : String)  -- ValueError
  | typeErr (msg : String)   -- TypeError
  | keyErr (key : ℤ)         -- KeyError on an int-keyed dict
  | attrErr (msg : String)   -- AttributeError
  | ioErr (msg : String)     -- IOError / OSError
  | zeroDivErr               -- ZeroDivisionError
  deriving DecidableEq

/-- Exception-propagating sequencing, the model of Python's behaviour that
a raised exception aborts the rest of the statement sequence. -/
def exBind {α β : Type} (x : Except PyErr α) (f : α → Except PyErr β) : Except PyErr β :=
  match x with
  | .error e => .error e
  | .ok a => f a

/-- Whitespace characters stripped by Python's int()/float()/str.strip(). -/
def isPySpace (c : Char) : Bool :=
  c = ' ' || c = '\t' || c = '\n' || c = '\r' || c = Char.ofNat 11 || c = Char.ofNat 12

/-- Strip leading and trailing whitespace (Python str.strip()). -/
def pyStrip (cs : List Char) : List Char :=
  ((cs.dropWhile isPySpace).reverse.dropWhile isPySpace).reverse

/-- Value of a digit string (most significant first). -/
def digitsVal (cs : List Char) : ℕ :=
  cs.foldl (fun a c => 10 * a + (c.toNat - 48)) 0

/-- Python `int(s)`: strips whitespace, optional sign, then decimal digits.
(Underscore digit separators are not modelled; device replies never
contain them.) -/
def pyInt (s : String) : Except PyErr ℤ :=
  let cs := pyStrip s.data
  let signed : Bool × List Char :=
    match cs with
    | '-' :: t => (true, t)
    | '+' :: t => (false, t)
    | t => (false, t)
  let ds := signed.2
  if !ds.isEmpty && ds.all Char.isDigit then
    .ok (if signed.1 then -(digitsVal ds : ℤ) else (digitsVal ds : ℤ))
  else
    .error (.valueErr s)

/-- Python `float(s)` on finite decimal literals, as an exact rational:
strips whitespace, optional sign, digits with optional fraction part and
optional exponent.  (The special values inf/nan are outside this exact
model.) -/
def pyFloat (s : String) : Except PyErr ℚ :=
  let cs := pyStrip s.data
  let signed : Bool × List Char :=
    match cs with
    | '-' :: t => (true, t)
    | '+' :: t => (false, t)
    | t => (false, t)
  let ip := signed.2.takeWhile Char.isDigit
  let cs2 := signed.2.dropWhile Char.isDigit
  let fracRest : List Char × List Char :=
    match cs2 with
    | '.' :: t => (t.takeWhile Char.isDigit, t.dropWhile Char.isDigit)
    | t => ([], t)
  let fp := fracRest.1
  if ip.isEmpty && fp.isEmpty then .error (.valueErr s) else
  let mant : ℚ := (digitsVal ip : ℚ) + (digitsVal fp : ℚ) / (10 : ℚ) ^ fp.length
  let expPart : Option ℤ :=
    match fracRest.2 with
    | [] => some 0
    | e :: t =>
      if e = 'e' || e = 'E' then
        let esigned : Bool × List Char :=
          match t with
          | '-' :: u => (true, u)
          | '+' :: u => (false, u)
          | u => (false, u)
        if !esigned.2.isEmpty && esigned.2.all Char.isDigit then
          some (if esigned.1 then -(digitsVal esigned.2 : ℤ) else (digitsVal esigned.2 : ℤ))
        else none
      else none
  match expPart with
  | none => .error (.valueErr s)
  | some e =>
    let v := mant * (10 : ℚ) ^ e
    .ok (if signed.1 then -v else v)

/-- Python `round(x)` on a float: round half to even, returning an int.
`int(round(x))` in the source is then the identity on this result. -/
def pyRoundInt (x : ℚ) : ℤ :=
  if x - ⌊x⌋ < 1/2 then ⌊x⌋
  else if 1/2 < x - ⌊x⌋ then ⌊x⌋ + 1
  else if ⌊x⌋ % 2 = 0 then ⌊x⌋ else ⌊x⌋ + 1

/-- Python `s[n:]` on a string. -/
def pyDrop (s : String) (n : ℕ) : String :=
  ⟨s.data.drop n⟩

/-- Python `s.split(",")`: auxiliary on character lists. -/
def splitCommaAux : List Char → List Char → List String
  | [], acc => [⟨acc.reverse⟩]
  | ',' :: t, acc => ⟨acc.reverse⟩ :: splitCommaAux t []
  | c :: t, acc => splitCommaAux t (c :: acc)

/-- Python `s.split(",")`. -/
def splitComma (s : String) : List String :=
  splitCommaAux s.data []

/-! ### Applied Motion Products STF03D stepper driver
(src/labdevices/applied_motion_products.py)

The driver state that matters to the claims is the calibration
`self._units_per_motor_turn : Option ℚ` (None until `set_calibration`).
The UDP transport is an oracle `respond : String → String` giving the
already-unframed reply text for each command (`query` strips the 2-byte
header and the carriage return before returning). -/

/-- STEPS_PER_TURN: number of steps for a full motor turn, given the
microstep resolution setting.  Note codes 2 and anything outside 0..15
are absent. -/
def STEPS_PER_TURN : List (ℤ × ℕ) :=
  [(0, 200), (1, 400), (3, 2000), (4, 5000), (5, 10000), (6, 12800),
   (7, 18000), (8, 20000), (9, 21600), (10, 25000), (11, 25400),
   (12, 25600), (13, 36000), (14, 50000), (15, 50800)]

/-- Dict lookup `STEPS_PER_TURN[code]` as a partial map. -/
def stepsPerTurn (code : ℤ) : Option ℕ :=
  (STEPS_PER_TURN.find? (fun p => p.1 == code)).map Prod.snd

namespace STF03D

/-- `self.microstep`: `int(self.query('MR')[3:])` (reply looks like `MR=3`). -/
def microstep (respond : String → String) : Except PyErr ℤ :=
  pyInt (pyDrop (respond "MR") 3)

/-- `self._conversion_factor`: raises `Exception('Set calibration first')`
when the calibration is still None, then looks the device-reported
microstep code up in STEPS_PER_TURN (KeyError when absent), then divides
(ZeroDivisionError when the calibration is 0.0). -/
def conversionFactor (unitsPerMotorTurn : Option ℚ) (respond : String → String) :
    Except PyErr ℚ :=
  match unitsPerMotorTurn with
  | none => .error (.exc "Set calibration first")
  | some u =>
    exBind (microstep respond) fun m =>
      match stepsPerTurn m with
      | none => .error (.keyErr m)
      | some spt =>
        if u = 0 then .error .zeroDivErr
        else .ok ((spt : ℚ) / u)

/-- `self._step_to_unit(step)`: `float(step) / self._conversion_factor`. -/
def stepToUnit (cal : Option ℚ) (respond : String → String) (step : ℤ) :
    Except PyErr ℚ :=
  exBind (conversionFactor cal respond) fun f =>
    if f = 0 then .error .zeroDivErr else .ok ((step : ℚ) / f)

/-- `self._unit_to_step(value)`: `int(round(value * self._conversion_factor))`. -/
def unitToStep (cal : Option ℚ) (respond : String → String) (value : ℚ) :
    Except PyErr ℤ :=
  exBind (conversionFactor cal respond) fun f =>
    .ok (pyRoundInt (value * f))

/-- `self.get_position()`: `int(self.query('SP')[3:])`, then `_step_to_unit`. -/
def getPosition (cal : Option ℚ) (respond : String → String) : Except PyErr ℚ :=
  exBind (pyInt (pyDrop (respond "SP") 3)) fun steps =>
    stepToUnit cal respond steps

/-- `self._get_future_movement_value()`: `int(self.query('DI')[3:])`, then
`_step_to_unit`. -/
def getFutureMovementValue (cal : Option ℚ) (respond : String → String) :
    Except PyErr ℚ :=
  exBind (pyInt (pyDrop (respond "DI") 3)) fun steps =>
    stepToUnit cal respond steps

/-- `self._set_future_movement_value(value)`: `_unit_to_step` first, then
the `DI{steps}` query (whose reply is discarded). -/
def setFutureMovementValue (cal : Option ℚ) (respond : String → String) (value : ℚ) :
    Except PyErr Unit :=
  exBind (unitToStep cal respond value) fun _steps =>
    .ok ()

/-- `self.move_relative(value)`: `_set_future_movement_value` then the `FL`
query (reply discarded). -/
def moveRelative (cal : Option ℚ) (respond : String → String) (value : ℚ) :
    Except PyErr Unit :=
  exBind (setFutureMovementValue cal respond value) fun _ =>
    .ok ()

/-- `self.move_absolute(position)`: `_set_future_movement_value` then the
`FP` query (reply discarded). -/
def moveAbsolute (cal : Option ℚ) (respond : String → String) (position : ℚ) :
    Except PyErr Unit :=
  exBind (setFutureMovementValue cal respond position) fun _ =>
    .ok ()

end STF03D

/-! ### Keysight oscilloscope (src/labdevices/keysight.py) -/

/-- The Keysight waveform preamble: a fixed-order tuple of typed fields,
with PREAMBLE_TYPES = (int, int, int, int, float, float, int, float,
float, int). -/
structure KPreamble where
  data_format : ℤ
  data_type : ℤ
  points : ℤ
  count : ℤ
  x_increment : ℚ
  x_origin : ℚ
  x_reference : ℤ
  y_increment : ℚ
  y_origin : ℚ
  y_reference : ℤ
  deriving DecidableEq

namespace Keysight

/-- `Oscilloscope._bytes_to_voltage`: maps each sample byte s to
`(s - y_reference) * y_increment + y_origin`, in order. -/
def bytesToVoltage (data : List ℕ) (p : KPreamble) : List ℚ :=
  data.map (fun (s : ℕ) => ((s : ℚ) - (p.y_reference : ℚ)) * p.y_increment + p.y_origin)

/-- `np.arange(start, stop, step)`: `max 0 ⌈(stop - start) / step⌉` entries,
the i-th being `start + i * step` (numpy's documented semantics; a zero
step raises in numpy and is outside this model). -/
def npArange (start stop step : ℚ) : List ℚ :=
  (List.range (⌈(stop - start) / step⌉).toNat).map (fun (i : ℕ) => start + (i : ℚ) * step)

/-- The time axis built by `Oscilloscope.get_trace`:
`np.arange(x_min, x_min + points * x_increment, x_increment)` with
`x_min = preamble.x_origin`. -/
def traceTimeAxis (p : KPreamble) : List ℚ :=
  npArange p.x_origin (p.x_origin + (p.points : ℚ) * p.x_increment) p.x_increment

/-- `Oscilloscope.get_preamble`: splits the reply on commas and casts the
fields in order through PREAMBLE_TYPES; Python's two-iterable `map` stops
at the shorter sequence, so fewer than 10 fields leaves `Preamble(*args)`
with missing arguments (TypeError), and a field that fails its cast
raises ValueError. -/
def getPreamble (resp : String) : Except PyErr KPreamble :=
  match splitComma resp with
  | f0 :: f1 :: f2 :: f3 :: f4 :: f5 :: f6 :: f7 :: f8 :: f9 :: _ =>
    exBind (pyInt f0) fun data_format =>
    exBind (pyInt f1) fun data_type =>
    exBind (pyInt f2) fun points =>
    exBind (pyInt f3) fun count =>
    exBind (pyFloat f4) fun x_increment =>
    exBind (pyFloat f5) fun x_origin =>
    exBind (pyInt f6) fun x_reference =>
    exBind (pyFloat f7) fun y_increment =>
    exBind (pyFloat f8) fun y_origin =>
    exBind (pyInt f9) fun y_reference =>
    .ok ⟨data_format, data_type, points, count, x_increment, x_origin,
         x_reference, y_increment, y_origin, y_reference⟩
  | _ => .error (.typeErr "Preamble() missing required positional arguments")

end Keysight

/-! ### Rohde & Schwarz oscilloscope (src/labdevices/rohde_schwarz.py) -/

/-- The R&S waveform header: PREAMBLE_TYPES = (float, float, int, int). -/
structure RSPreamble where
  x_start : ℚ
  x_stop : ℚ
  points : ℤ
  values_per_sample : ℤ
  deriving DecidableEq

namespace RS

/-- `Oscilloscope.get_preamble` for R&S: same split-and-cast scheme over
four fields. -/
def getPreamble (resp : String) : Except PyErr RSPreamble :=
  match splitComma resp with
  | f0 :: f1 :: f2 :: f3 :: _ =>
    exBind (pyFloat f0) fun x_start =>
    exBind (pyFloat f1) fun x_stop =>
    exBind (pyInt f2) fun points =>
    exBind (pyInt f3) fun values_per_sample =>
    .ok ⟨x_start, x_stop, points, values_per_sample⟩
  | _ => .error (.typeErr "Preamble() missing required positional arguments")

end RS

/-! ### Address validation (KeysightDevice.__init__ / RSDevice.__init__)

The regexes are modelled exactly, including Python `re.match` anchoring
at the start only and `$` also matching just before one trailing
newline.  KeysightDevice uses `^\d+\.\d+\.\d+\.\d+$` (anchored at both
ends); RSDevice uses `\d+\.\d+\.\d+\.\d+` (anchored at the start only,
since `re.match` implies `^`).  Both use `^USB.+::INSTR$`. -/

/-- Consume a nonempty maximal digit run (`\d+`). -/
def consumeDigits : List Char → Option (List Char)
  | c :: t => if c.isDigit then some (t.dropWhile Char.isDigit) else none
  | [] => none

/-- Consume one expected character. -/
def consumeChar (c : Char) : List Char → Option (List Char)
  | d :: t => if d = c then some t else none
  | [] => none

/-- Remainder after matching `\d+\.\d+\.\d+\.\d+` at the front. -/
def ipRemainder (cs : List Char) : Option (List Char) :=
  ((((((consumeDigits cs).bind (consumeChar '.')).bind consumeDigits).bind
      (consumeChar '.')).bind consumeDigits).bind (consumeChar '.')).bind consumeDigits

/-- `re.match(r'\d+\.\d+\.\d+\.\d+', s)` (start-anchored only). -/
def ipStartMatch (s : String) : Bool :=
  (ipRemainder s.data).isSome

/-- `re.match(r'^\d+\.\d+\.\d+\.\d+$', s)`: the whole string, where `$`
also matches just before one trailing newline. -/
def ipFullMatch (s : String) : Bool :=
  match ipRemainder s.data with
  | some [] => true
  | some ['\n'] => true
  | _ => false

/-- `re.match(r'^USB.+::INSTR$', s)`: "USB", then at least one
non-newline character, then "::INSTR" at the end (or just before one
trailing newline). -/
def usbMatch (s : String) : Bool :=
  let cs := if s.data.getLast? == some '\n' then s.data.dropLast else s.data
  match cs with
  | 'U' :: 'S' :: 'B' :: rest =>
    decide (8 ≤ rest.length) &&
      (rest.drop (rest.length - 7) == [':', ':', 'I', 'N', 'S', 'T', 'R']) &&
      (rest.take (rest.length - 7)).all (fun c => c != '\n')
  | _ => false

/-- `KeysightDevice.__init__`: stores `TCPIP::<address>::INSTR` for an IP
address, the address itself for a USB VISA address, and raises
ValueError otherwise.  No I/O happens; the transport handle stays None. -/
def keysightInitAddress (address : String) : Except PyErr String :=
  if ipFullMatch address then .ok ("TCPIP::" ++ address ++ "::INSTR")
  else if usbMatch address then .ok address
  else .error (.valueErr "Address needs to be an IP or a valid VISA address.")

/-- `RSDevice.__init__`: same scheme, but its IP regex lacks the `$`
anchor, so any address that merely starts with a dotted-quad prefix is
accepted. -/
def rsInitAddress (address : String) : Except PyErr String :=
  if ipStartMatch address then .ok ("TCPIP::" ++ address ++ "::INSTR")
  else if usbMatch address then .ok address
  else .error (.valueErr "Address needs to be an IP or a valid VISA address.")

/-! ### close() on a never-opened or already-closed driver

Each close is modelled as a function of the transport handle
(`Option Unit`: None or an open handle), returning the new handle or the
exception the Python method raises. -/

/-- `KeysightDevice.close`: a None handle prints `Device already closed.`
and returns; otherwise before_close/close and the handle is set to None. -/
def keysightClose (handle : Option Unit) : Except PyErr (Option Unit) :=
  match handle with
  | none => .ok none
  | some _ => .ok none

/-- `RSDevice.close`: a None handle prints `Device already closed.` but
does NOT return; the method falls through to
`self._device.before_close()`, which dereferences None. -/
def rsClose (handle : Option Unit) : Except PyErr (Option Unit) :=
  match handle with
  | none => .error (.attrErr "NoneType object has no attribute before_close")
  | some _ => .ok none

/-- `STF03D.close`: a None handle prints `Device is already closed.` and
returns; otherwise the socket is closed (the attribute keeps the closed
socket). -/
def stf03dClose (handle : Option Unit) : Except PyErr (Option Unit) :=
  match handle with
  | none => .ok none
  | some _ => .ok (some ())

/-- `DG645.close`: unconditionally prints `self.idn` first, which queries
the device; on a None handle `self._device.send` dereferences None. -/
def dg645Close (handle : Option Unit) : Except PyErr (Option Unit) :=
  match handle with
  | none => .error (.attrErr "NoneType object has no attribute send")
  | some _ => .ok (some ())

/-- `TPG362.close`: `if self._device is not None: self._device.close()`. -/
def tpg362Close (handle : Option Unit) : Except PyErr (Option Unit) :=
  match handle with
  | none => .ok none
  | some _ => .ok (some ())

/-! ### Pfeiffer Vacuum TPG362 (src/labdevices/pfeiffer_vacuum.py)

The serial transport is an oracle `query : String → String`; the extra
read done by `_clear_output_buffer` is the string `nextRead`. -/

namespace TPG362

/-- CTRL_CHAR ACK: positive acknowledge, chr(6). -/
def ACK : String := (Char.ofNat 6).toString

/-- CTRL_CHAR ENQ: enquiry, chr(5). -/
def ENQ : String := (Char.ofNat 5).toString

/-- CTRL_CHAR NAK: negative acknowledge, chr(21). -/
def NAK : String := (Char.ofNat 21).toString

/-- `TPG362._send_command`: raises IOError when the reply is NAK.  When
the reply differs from ACK the source builds the message
`Serial communication returned unknown response: ...` but contains no
raise statement, so the command is accepted anyway. -/
def sendCommand (query : String → String) (cmd : String) : Except PyErr Unit :=
  let recv := query cmd
  if recv = NAK then
    .error (.ioErr "Serial communication returned negative acknowledge")
  else if recv ≠ ACK then
    .ok ()
  else
    .ok ()

/-- `TPG362._query`: `_send_command`, then `_get_data` (a query with ENQ),
then `_clear_output_buffer` (a read whose result is discarded). -/
def tpgQuery (query : String → String) (nextRead : String) (cmd : String) :
    Except PyErr String :=
  exBind (sendCommand query cmd) fun _ =>
    let data := query ENQ
    let _cleared := nextRead
    .ok data

end TPG362

/-! ## Helper lemmas -/

/-- Half-even rounding lands within half a unit of its argument. -/
theorem pyRoundInt_close (x : ℚ) : |(pyRoundInt x : ℚ) - x| ≤ 1/2 := by
  have h0 : (⌊x⌋ : ℚ) ≤ x := Int.floor_le x
  have h1 : x < (⌊x⌋ : ℚ) + 1 := Int.lt_floor_add_one x
  unfold pyRoundInt
  split_ifs with hlt hgt hev <;> rw [abs_le] <;> push_cast <;>
    constructor <;> linarith

/-- Rounding an integer is the identity. -/
theorem pyRoundInt_intCast (n : ℤ) : pyRoundInt ((n : ℤ) : ℚ) = n := by
  unfold pyRoundInt
  rw [Int.floor_intCast]
  simp

/-- Every steps-per-turn table entry is positive. -/
theorem stepsPerTurn_pos {m : ℤ} {spt : ℕ} (h : stepsPerTurn m = some spt) :
    0 < spt := by
  unfold stepsPerTurn at h
  cases hf : STEPS_PER_TURN.find? (fun p => p.1 == m) with
  | none => rw [hf] at h; simp at h
  | some p =>
    rw [hf] at h
    simp only [Option.map_some'] at h
    have hmem : p ∈ STEPS_PER_TURN := List.mem_of_find?_eq_some hf
    have h2 : p.2 = spt := Option.some.inj h
    rw [← h2]
    fin_cases hmem <;> decide

/-- Evaluation of `_conversion_factor` on a calibrated driver whose
microstep reply parses to a tabulated code. -/
theorem conversionFactor_eval {u : ℚ} {respond : String → String} {m : ℤ} {spt : ℕ}
    (hm : pyInt (pyDrop (respond "MR") 3) = .ok m)
    (hspt : stepsPerTurn m = some spt) (hu : u ≠ 0) :
    STF03D.conversionFactor (some u) respond = .ok ((spt : ℚ) / u) := by
  unfold STF03D.conversionFactor STF03D.microstep
  rw [hm]
  simp only [exBind]
  rw [hspt]
  simp [hu]

/-- Evaluation of `_conversion_factor` when the microstep code is not in
the table. -/
theorem conversionFactor_keyErr {u : ℚ} {respond : String → String} {m : ℤ}
    (hm : pyInt (pyDrop (respond "MR") 3) = .ok m)
    (hspt : stepsPerTurn m = none) :
    STF03D.conversionFactor (some u) respond = .error (.keyErr m) := by
  unfold STF03D.conversionFactor STF03D.microstep
  rw [hm]
  simp only [exBind]
  rw [hspt]

/-! ## Claims -/

/-- C4 (confirmed): for a calibrated driver (units_per_motor_turn u ≠ 0)
whose reported microstep code m is in the table,
`_unit_to_step(value) = round(value * STEPS_PER_TURN[m] / u)` (Python's
half-even round, then `int`), and `_step_to_unit(step) = step * u /
STEPS_PER_TURN[m]`, the inverse conversion without rounding. -/
theorem stf03d_conversion_formulas (u v : ℚ) (s m : ℤ) (spt : ℕ)
    (respond : String → String) (hu : u ≠ 0)
    (hm : pyInt (pyDrop (respond "MR") 3) = .ok m)
    (hspt : stepsPerTurn m = some spt) :
    STF03D.unitToStep (some u) respond v = .ok (pyRoundInt (v * (spt : ℚ) / u)) ∧
    STF03D.stepToUnit (some u) respond s = .ok ((s : ℚ) * u / (spt : ℚ)) := by
  have hpos := stepsPerTurn_pos hspt
  have hsptQ : (0 : ℚ) < (spt : ℚ) := by exact_mod_cast hpos
  have hf := conversionFactor_eval hm hspt hu
  have hfne : ((spt : ℚ) / u) ≠ 0 := div_ne_zero hsptQ.ne' hu
  constructor
  · unfold STF03D.unitToStep
    rw [hf]
    simp only [exBind]
    rw [mul_div_assoc]
  · unfold STF03D.stepToUnit
    rw [hf]
    simp only [exBind]
    rw [if_neg hfne, div_div_eq_mul_div]

/-- Witness for C4 at u = 2, microstep code 0 (200 steps per turn). -/
theorem stf03d_conversion_formulas_witness :
    STF03D.unitToStep (some 2) (fun _ => "MR=0") 1 = .ok 100 ∧
    STF03D.stepToUnit (some 2) (fun _ => "MR=0") 100 = .ok 1 := by
  have h := stf03d_conversion_formulas 2 1 100 0 200 (fun _ => "MR=0")
    (by norm_num) rfl rfl
  constructor
  · have hval : (1 : ℚ) * ((200 : ℕ) : ℚ) / 2 = ((100 : ℤ) : ℚ) := by norm_num
    rw [h.1, hval, pyRoundInt_intCast]
  · rw [h.2]
    norm_num

/-- C1 (corrected): the round trip `_step_to_unit(_unit_to_step(v))`
returns v up to half a step, but the tolerance is
`|0.5 * units_per_motor_turn / steps_per_turn|`: for a negative
calibration the claim's literal bound `0.5 * units_per_motor_turn /
steps_per_turn` is negative and fails (see the counterexample). -/
theorem stf03d_roundtrip (u v : ℚ) (m : ℤ) (spt : ℕ) (respond : String → String)
    (hu : u ≠ 0) (hm : pyInt (pyDrop (respond "MR") 3) = .ok m)
    (hspt : stepsPerTurn m = some spt) :
    ∃ s : ℤ, STF03D.unitToStep (some u) respond v = .ok s ∧
      ∃ w : ℚ, STF03D.stepToUnit (some u) respond s = .ok w ∧
        |w - v| ≤ |1/2 * u / (spt : ℚ)| := by
  have hpos := stepsPerTurn_pos hspt
  have hsptQ : (0 : ℚ) < (spt : ℚ) := by exact_mod_cast hpos
  have hf := conversionFactor_eval hm hspt hu
  have hfne : ((spt : ℚ) / u) ≠ 0 := div_ne_zero hsptQ.ne' hu
  refine ⟨pyRoundInt (v * ((spt : ℚ) / u)), ?_,
    (pyRoundInt (v * ((spt : ℚ) / u)) : ℚ) / ((spt : ℚ) / u), ?_, ?_⟩
  · unfold STF03D.unitToStep
    rw [hf]
    simp only [exBind]
  · unfold STF03D.stepToUnit
    rw [hf]
    simp only [exBind]
    rw [if_neg hfne]
  · have hb := pyRoundInt_close (v * ((spt : ℚ) / u))
    have h1 : (pyRoundInt (v * ((spt : ℚ) / u)) : ℚ) / ((spt : ℚ) / u) - v =
        ((pyRoundInt (v * ((spt : ℚ) / u)) : ℚ) - v * ((spt : ℚ) / u)) / ((spt : ℚ) / u) := by
      field_simp
      ring
    rw [h1, abs_div]
    have h2 : |(pyRoundInt (v * ((spt : ℚ) / u)) : ℚ) - v * ((spt : ℚ) / u)| / |(spt : ℚ) / u| ≤
        (1/2) / |(spt : ℚ) / u| :=
      (div_le_div_iff_of_pos_right (abs_pos.mpr hfne)).mpr hb
    refine h2.trans_eq ?_
    rw [show |(spt : ℚ) / u| = (spt : ℚ) / |u| from by
        rw [abs_div, abs_of_pos hsptQ],
      show |(1 : ℚ)/2 * u / (spt : ℚ)| = 1/2 * |u| / (spt : ℚ) from by
        rw [abs_div, abs_mul, abs_of_pos hsptQ,
          abs_of_pos (show (0:ℚ) < 1/2 by norm_num)],
      div_div_eq_mul_div]

/-- Witness for the amended C1 at u = 2, v = 1, microstep code 0. -/
theorem stf03d_roundtrip_witness :
    ∃ s : ℤ, STF03D.unitToStep (some 2) (fun _ => "MR=0") 1 = .ok s ∧
      ∃ w : ℚ, STF03D.stepToUnit (some 2) (fun _ => "MR=0") s = .ok w ∧
        |w - 1| ≤ |1/2 * 2 / ((200 : ℕ) : ℚ)| :=
  stf03d_roundtrip 2 1 0 200 (fun _ => "MR=0") (by norm_num) rfl rfl

/-- Counterexample to C1 as stated: with calibration u = -1 (non-zero)
and microstep code 0, the round trip of v = 1/1000 gives 0, and the
difference 1/1000 exceeds the claim's literal tolerance
`0.5 * u / steps_per_turn = -1/400`, which is negative. -/
theorem stf03d_roundtrip_cex :
    STF03D.unitToStep (some (-1)) (fun _ => "MR=0") (1/1000) = .ok 0 ∧
    STF03D.stepToUnit (some (-1)) (fun _ => "MR=0") 0 = .ok 0 ∧
    ¬ (|(0 : ℚ) - 1/1000| ≤ 1/2 * (-1) / ((200 : ℕ) : ℚ)) := by
  have hf := @conversionFactor_eval (-1) (fun _ => "MR=0") 0 200 rfl rfl (by norm_num)
  refine ⟨?_, ?_, ?_⟩
  · unfold STF03D.unitToStep
    rw [hf]
    simp only [exBind]
    have hv : (1/1000 : ℚ) * ((200 : ℚ) / (-1)) = -1/5 := by norm_num
    rw [show ((200 : ℕ) : ℚ) = (200 : ℚ) from by norm_num, hv]
    have hfl : ⌊(-1/5 : ℚ)⌋ = -1 := by
      rw [Int.floor_eq_iff]
      norm_num
    unfold pyRoundInt
    rw [hfl]
    norm_num
  · unfold STF03D.stepToUnit
    rw [hf]
    simp only [exBind]
    rw [if_neg (by norm_num)]
    norm_num
  · rw [show |(0 : ℚ) - 1/1000| = 1/1000 from by
      rw [zero_sub, abs_neg, abs_of_nonneg (by norm_num)]]
    norm_num

/-- C2 (confirmed): with the calibration still None, the unit-aware
operations never return a value; move_relative and move_absolute raise
`Exception('Set calibration first')` outright, and get_position /
_get_future_movement_value raise it as soon as the device reply parses
(an unparseable reply raises a ValueError even earlier, still never
returning a value). -/
theorem stf03d_requires_calibration (respond : String → String) (v : ℚ) :
    STF03D.moveRelative none respond v = .error (.exc "Set calibration first") ∧
    STF03D.moveAbsolute none respond v = .error (.exc "Set calibration first") ∧
    (∀ q : ℚ, STF03D.getPosition none respond ≠ .ok q) ∧
    (∀ q : ℚ, STF03D.getFutureMovementValue none respond ≠ .ok q) ∧
    (∀ steps : ℤ, pyInt (pyDrop (respond "SP") 3) = .ok steps →
      STF03D.getPosition none respond = .error (.exc "Set calibration first")) ∧
    (∀ steps : ℤ, pyInt (pyDrop (respond "DI") 3) = .ok steps →
      STF03D.getFutureMovementValue none respond = .error (.exc "Set calibration first")) := by
  refine ⟨rfl, rfl, ?_, ?_, ?_, ?_⟩
  · intro q hq
    unfold STF03D.getPosition at hq
    cases hp : pyInt (pyDrop (respond "SP") 3) with
    | error e => rw [hp] at hq; simp [exBind] at hq
    | ok steps =>
      rw [hp] at hq
      simp only [exBind] at hq
      exact Except.noConfusion hq
  · intro q hq
    unfold STF03D.getFutureMovementValue at hq
    cases hp : pyInt (pyDrop (respond "DI") 3) with
    | error e => rw [hp] at hq; simp [exBind] at hq
    | ok steps =>
      rw [hp] at hq
      simp only [exBind] at hq
      exact Except.noConfusion hq
  · intro steps hp
    unfold STF03D.getPosition
    rw [hp]
    simp only [exBind]
    rfl
  · intro steps hp
    unfold STF03D.getFutureMovementValue
    rw [hp]
    simp only [exBind]
    rfl

/-- Witness for C2 on a concrete well-formed oracle. -/
theorem stf03d_requires_calibration_witness :
    STF03D.moveRelative none (fun _ => "XX=0") 1 = .error (.exc "Set calibration first") ∧
    STF03D.getPosition none (fun _ => "XX=0") = .error (.exc "Set calibration first") :=
  ⟨(stf03d_requires_calibration (fun _ => "XX=0") 1).1,
   (stf03d_requires_calibration (fun _ => "XX=0") 1).2.2.2.2.1 0 rfl⟩

/-- C8 (confirmed): on a calibrated driver, a device-reported microstep
code absent from STEPS_PER_TURN (such as 2) makes every unit-aware
conversion fail with the KeyError of the dict lookup. -/
theorem stf03d_unknown_microstep (u v : ℚ) (s m : ℤ) (respond : String → String)
    (hm : pyInt (pyDrop (respond "MR") 3) = .ok m)
    (hspt : stepsPerTurn m = none) :
    STF03D.unitToStep (some u) respond v = .error (.keyErr m) ∧
    STF03D.stepToUnit (some u) respond s = .error (.keyErr m) ∧
    STF03D.moveRelative (some u) respond v = .error (.keyErr m) ∧
    STF03D.moveAbsolute (some u) respond v = .error (.keyErr m) := by
  have hcf := @conversionFactor_keyErr u respond m hm hspt
  refine ⟨?_, ?_, ?_, ?_⟩
  · unfold STF03D.unitToStep
    rw [hcf]
    simp only [exBind]
  · unfold STF03D.stepToUnit
    rw [hcf]
    simp only [exBind]
  · unfold STF03D.moveRelative STF03D.setFutureMovementValue STF03D.unitToStep
    rw [hcf]
    simp only [exBind]
  · unfold STF03D.moveAbsolute STF03D.setFutureMovementValue STF03D.unitToStep
    rw [hcf]
    simp only [exBind]

/-- Witness for C8 at microstep code 2, which the table omits. -/
theorem stf03d_unknown_microstep_witness :
    STF03D.unitToStep (some 1) (fun _ => "MR=2") 5 = .error (.keyErr 2) ∧
    STF03D.stepToUnit (some 1) (fun _ => "MR=2") 7 = .error (.keyErr 2) :=
  ⟨(stf03d_unknown_microstep 1 5 7 2 (fun _ => "MR=2") rfl rfl).1,
   (stf03d_unknown_microstep 1 5 7 2 (fun _ => "MR=2") rfl rfl).2.1⟩

/-- C5 (code_bug evaluation): on a never-opened or already-closed handle
(None), KeysightDevice.close, STF03D.close and TPG362.close return
without raising, but RSDevice.close falls through its already-closed
branch into `None.before_close()` and DG645.close dereferences the None
socket while printing the identity, both raising AttributeError. -/
theorem close_on_closed_handle :
    keysightClose none = .ok none ∧ stf03dClose none = .ok none ∧
    tpg362Close none = .ok none ∧
    rsClose none = .error (.attrErr "NoneType object has no attribute before_close") ∧
    dg645Close none = .error (.attrErr "NoneType object has no attribute send") :=
  ⟨rfl, rfl, rfl, rfl, rfl⟩

/-- Reading a mapped list at a valid index. -/
theorem getD_map_q (f : ℕ → ℚ) (l : List ℕ) (i : ℕ) (h : i < l.length) :
    (l.map f).getD i 0 = f (l.getD i 0) := by
  rw [List.getD_eq_getElem?_getD, List.getElem?_map, List.getElem?_eq_getElem h,
    List.getD_eq_getElem l 0 h]
  rfl

/-- Reading a mapped range at a valid index. -/
theorem getD_range_map (f : ℕ → ℚ) (n i : ℕ) (h : i < n) :
    ((List.range n).map f).getD i 0 = f i := by
  have h1 : i < (List.range n).length := by simpa using h
  rw [List.getD_eq_getElem?_getD, List.getElem?_map, List.getElem?_eq_getElem h1]
  simp

/-- C3 (confirmed): `_bytes_to_voltage` returns one value per sample, in
order, the i-th being `(s - y_reference) * y_increment + y_origin`; with
y_increment = 1, y_origin = 0, y_reference = 128, sample 128 decodes to
0 and sample 228 decodes to 100. -/
theorem keysight_bytes_to_voltage (data : List ℕ) (p : KPreamble) :
    (Keysight.bytesToVoltage data p).length = data.length ∧
    (∀ i : ℕ, i < data.length →
      (Keysight.bytesToVoltage data p).getD i 0 =
        (((data.getD i 0 : ℕ) : ℚ) - (p.y_reference : ℚ)) * p.y_increment + p.y_origin) ∧
    (p.y_increment = 1 → p.y_origin = 0 → p.y_reference = 128 →
      Keysight.bytesToVoltage [128] p = [0] ∧
      Keysight.bytesToVoltage [228] p = [100]) := by
  refine ⟨by unfold Keysight.bytesToVoltage; exact List.length_map _ _, ?_, ?_⟩
  · intro i hi
    unfold Keysight.bytesToVoltage
    exact getD_map_q _ data i hi
  · intro h1 h2 h3
    refine ⟨?_, ?_⟩
    · simp [Keysight.bytesToVoltage, h1, h2, h3]
    · simp [Keysight.bytesToVoltage, h1, h2, h3]
      norm_num

/-- Witness for C3 on the concrete preamble of the spec example. -/
theorem keysight_bytes_to_voltage_witness :
    Keysight.bytesToVoltage [128] ⟨0, 0, 1, 1, 1, 0, 0, 1, 0, 128⟩ = [0] ∧
    Keysight.bytesToVoltage [228] ⟨0, 0, 1, 1, 1, 0, 0, 1, 0, 128⟩ = [100] :=
  (keysight_bytes_to_voltage [] ⟨0, 0, 1, 1, 1, 0, 0, 1, 0, 128⟩).2.2 rfl rfl rfl

/-- C6 (confirmed): when the reported point count matches the sample
array length (and the time increment is non-zero, so numpy's arange is
defined), the Keysight get_trace time axis has exactly `points` entries,
the i-th being `x_origin + i * x_increment`, spanning
`points * x_increment` from x_origin. -/
theorem keysight_time_axis (p : KPreamble) (data : List ℕ)
    (hlen : (data.length : ℤ) = p.points) (hinc : p.x_increment ≠ 0) :
    (Keysight.traceTimeAxis p).length = p.points.toNat ∧
    ∀ i : ℕ, (i : ℤ) < p.points →
      (Keysight.traceTimeAxis p).getD i 0 = p.x_origin + (i : ℚ) * p.x_increment := by
  have hceil :
      ⌈(p.x_origin + (p.points : ℚ) * p.x_increment - p.x_origin) / p.x_increment⌉ =
        p.points := by
    rw [add_sub_cancel_left, mul_div_cancel_right₀ _ hinc, Int.ceil_intCast]
  constructor
  · unfold Keysight.traceTimeAxis Keysight.npArange
    rw [hceil, List.length_map, List.length_range]
  · intro i hi
    have hnn : 0 ≤ p.points := by omega
    have hi' : i < p.points.toNat := by omega
    unfold Keysight.traceTimeAxis Keysight.npArange
    rw [hceil]
    exact getD_range_map _ _ _ hi'

/-- Witness for C6 with points = 3, x_origin = 5, x_increment = 1. -/
theorem keysight_time_axis_witness :
    (Keysight.traceTimeAxis ⟨0, 0, 3, 1, 1, 5, 0, 1, 0, 128⟩).length = (3 : ℤ).toNat ∧
    (Keysight.traceTimeAxis ⟨0, 0, 3, 1, 1, 5, 0, 1, 0, 128⟩).getD 2 0 = 5 + (2 : ℚ) * 1 := by
  have h := keysight_time_axis ⟨0, 0, 3, 1, 1, 5, 0, 1, 0, 128⟩ [7, 7, 7]
    (by norm_num) (by norm_num)
  exact ⟨h.1, h.2 2 (by norm_num)⟩

/-- C7 (confirmed): get_preamble propagates parse failures.  A reply
with fewer comma-separated fields than the preamble requires always
yields an error (Python's two-iterable map stops at the shorter list and
the Preamble constructor then lacks arguments), and any successful
return forces every field to have parsed by its declared type into
exactly the returned values, so no field is silently defaulted; a field
that fails its declared cast therefore can never yield a Preamble. -/
theorem get_preamble_parse_strict (resp : String) :
    ((splitComma resp).length < 10 → ∃ e, Keysight.getPreamble resp = .error e) ∧
    (∀ p : KPreamble, Keysight.getPreamble resp = .ok p →
      ∃ f0 f1 f2 f3 f4 f5 f6 f7 f8 f9 rest,
        splitComma resp = f0 :: f1 :: f2 :: f3 :: f4 :: f5 :: f6 :: f7 :: f8 :: f9 :: rest ∧
        pyInt f0 = .ok p.data_format ∧ pyInt f1 = .ok p.data_type ∧
        pyInt f2 = .ok p.points ∧ pyInt f3 = .ok p.count ∧
        pyFloat f4 = .ok p.x_increment ∧ pyFloat f5 = .ok p.x_origin ∧
        pyInt f6 = .ok p.x_reference ∧ pyFloat f7 = .ok p.y_increment ∧
        pyFloat f8 = .ok p.y_origin ∧ pyInt f9 = .ok p.y_reference) ∧
    ((splitComma resp).length < 4 → ∃ e, RS.getPreamble resp = .error e) ∧
    (∀ p : RSPreamble, RS.getPreamble resp = .ok p →
      ∃ g0 g1 g2 g3 rest,
        splitComma resp = g0 :: g1 :: g2 :: g3 :: rest ∧
        pyFloat g0 = .ok p.x_start ∧ pyFloat g1 = .ok p.x_stop ∧
        pyInt g2 = .ok p.points ∧ pyInt g3 = .ok p.values_per_sample) := by
  have hk : ∀ p : KPreamble, Keysight.getPreamble resp = .ok p →
      ∃ f0 f1 f2 f3 f4 f5 f6 f7 f8 f9 rest,
        splitComma resp = f0 :: f1 :: f2 :: f3 :: f4 :: f5 :: f6 :: f7 :: f8 :: f9 :: rest ∧
        pyInt f0 = .ok p.data_format ∧ pyInt f1 = .ok p.data_type ∧
        pyInt f2 = .ok p.points ∧ pyInt f3 = .ok p.count ∧
        pyFloat f4 = .ok p.x_increment ∧ pyFloat f5 = .ok p.x_origin ∧
        pyInt f6 = .ok p.x_reference ∧ pyFloat f7 = .ok p.y_increment ∧
        pyFloat f8 = .ok p.y_origin ∧ pyInt f9 = .ok p.y_reference := by
    intro p h
    unfold Keysight.getPreamble at h
    split at h
    case _ f0 f1 f2 f3 f4 f5 f6 f7 f8 f9 rest heq =>
      cases h0 : pyInt f0 with
      | error e => rw [h0] at h; exact Except.noConfusion h
      | ok a0 =>
      rw [h0] at h; simp only [exBind] at h
      cases h1 : pyInt f1 with
      | error e => rw [h1] at h; exact Except.noConfusion h
      | ok a1 =>
      rw [h1] at h; simp only [exBind] at h
      cases h2 : pyInt f2 with
      | error e => rw [h2] at h; exact Except.noConfusion h
      | ok a2 =>
      rw [h2] at h; simp only [exBind] at h
      cases h3 : pyInt f3 with
      | error e => rw [h3] at h; exact Except.noConfusion h
      | ok a3 =>
      rw [h3] at h; simp only [exBind] at h
      cases h4 : pyFloat f4 with
      | error e => rw [h4] at h; exact Except.noConfusion h
      | ok a4 =>
      rw [h4] at h; simp only [exBind] at h
      cases h5 : pyFloat f5 with
      | error e => rw [h5] at h; exact Except.noConfusion h
      | ok a5 =>
      rw [h5] at h; simp only [exBind] at h
      cases h6 : pyInt f6 with
      | error e => rw [h6] at h; exact Except.noConfusion h
      | ok a6 =>
      rw [h6] at h; simp only [exBind] at h
      cases h7 : pyFloat f7 with
      | error e => rw [h7] at h; exact Except.noConfusion h
      | ok a7 =>
      rw [h7] at h; simp only [exBind] at h
      cases h8 : pyFloat f8 with
      | error e => rw [h8] at h; exact Except.noConfusion h
      | ok a8 =>
      rw [h8] at h; simp only [exBind] at h
      cases h9 : pyInt f9 with
      | error e => rw [h9] at h; exact Except.noConfusion h
      | ok a9 =>
      rw [h9] at h; simp only [exBind] at h
      injection h with h
      subst h
      exact ⟨f0, f1, f2, f3, f4, f5, f6, f7, f8, f9, rest, heq,
        h0, h1, h2, h3, h4, h5, h6, h7, h8, h9⟩
    case _ =>
      exact Except.noConfusion h
  have hr : ∀ p : RSPreamble, RS.getPreamble resp = .ok p →
      ∃ g0 g1 g2 g3 rest,
        splitComma resp = g0 :: g1 :: g2 :: g3 :: rest ∧
        pyFloat g0 = .ok p.x_start ∧ pyFloat g1 = .ok p.x_stop ∧
        pyInt g2 = .ok p.points ∧ pyInt g3 = .ok p.values_per_sample := by
    intro p h
    unfold RS.getPreamble at h
    split at h
    case _ g0 g1 g2 g3 rest heq =>
      cases h0 : pyFloat g0 with
      | error e => rw [h0] at h; exact Except.noConfusion h
      | ok a0 =>
      rw [h0] at h; simp only [exBind] at h
      cases h1 : pyFloat g1 with
      | error e => rw [h1] at h; exact Except.noConfusion h
      | ok a1 =>
      rw [h1] at h; simp only [exBind] at h
      cases h2 : pyInt g2 with
      | error e => rw [h2] at h; exact Except.noConfusion h
      | ok a2 =>
      rw [h2] at h; simp only [exBind] at h
      cases h3 : pyInt g3 with
      | error e => rw [h3] at h; exact Except.noConfusion h
      | ok a3 =>
      rw [h3] at h; simp only [exBind] at h
      injection h with h
      subst h
      exact ⟨g0, g1, g2, g3, rest, heq, h0, h1, h2, h3⟩
    case _ =>
      exact Except.noConfusion h
  refine ⟨?_, hk, ?_, hr⟩
  · intro hlt
    cases h : Keysight.getPreamble resp with
    | error e => exact ⟨e, rfl⟩
    | ok p =>
      obtain ⟨f0, f1, f2, f3, f4, f5, f6, f7, f8, f9, rest, hs, _⟩ := hk p h
      rw [hs] at hlt
      simp at hlt
      omega
  · intro hlt
    cases h : RS.getPreamble resp with
    | error e => exact ⟨e, rfl⟩
    | ok p =>
      obtain ⟨g0, g1, g2, g3, rest, hs, _⟩ := hr p h
      rw [hs] at hlt
      simp at hlt
      omega

/-- Witness for C7 on the truncated reply `1,2,3`. -/
theorem get_preamble_parse_strict_witness :
    (∃ e, Keysight.getPreamble "1,2,3" = .error e) ∧
    (∃ e, RS.getPreamble "1,2,3" = .error e) :=
  ⟨(get_preamble_parse_strict "1,2,3").1 (by decide),
   (get_preamble_parse_strict "1,2,3").2.2.1 (by decide)⟩

/-- C9 (corrected): KeysightDevice accepts exactly the fully-anchored
IPv4 pattern (stored as `TCPIP::<address>::INSTR`) or the USB VISA
pattern, raising ValueError otherwise with no I/O; RSDevice behaves the
same except that its IPv4 regex has no end anchor, so an address merely
starting with a dotted-quad prefix is accepted (see the
counterexample). -/
theorem address_validation (a : String) :
    ((∃ e, keysightInitAddress a = .error e) ↔
      ipFullMatch a = false ∧ usbMatch a = false) ∧
    (ipFullMatch a = true → keysightInitAddress a = .ok ("TCPIP::" ++ a ++ "::INSTR")) ∧
    ((∃ e, rsInitAddress a = .error e) ↔
      ipStartMatch a = false ∧ usbMatch a = false) ∧
    (ipStartMatch a = true → rsInitAddress a = .ok ("TCPIP::" ++ a ++ "::INSTR")) := by
  cases h1 : ipFullMatch a <;> cases h2 : usbMatch a <;> cases h3 : ipStartMatch a <;>
    simp [keysightInitAddress, rsInitAddress, h1, h2, h3]

/-- Witness for C9 (amended): a dotted-quad is stored with the TCPIP
wrapping by both constructors, and a non-address raises. -/
theorem address_validation_witness :
    keysightInitAddress "10.0.0.1" = .ok "TCPIP::10.0.0.1::INSTR" ∧
    rsInitAddress "10.0.0.1" = .ok "TCPIP::10.0.0.1::INSTR" ∧
    (∃ e, keysightInitAddress "garbage" = .error e) :=
  ⟨(address_validation "10.0.0.1").2.1 (by decide),
   (address_validation "10.0.0.1").2.2.2 (by decide),
   (address_validation "garbage").1.mpr ⟨by decide, by decide⟩⟩

/-- Counterexample to C9 as stated: `1.2.3.4x` matches neither the
dotted-IPv4 address shape nor the USB VISA pattern, yet the RSDevice
constructor accepts it and stores `TCPIP::1.2.3.4x::INSTR` instead of
raising ValueError. -/
theorem address_validation_cex :
    ipFullMatch "1.2.3.4x" = false ∧ usbMatch "1.2.3.4x" = false ∧
    rsInitAddress "1.2.3.4x" = .ok "TCPIP::1.2.3.4x::INSTR" :=
  ⟨by decide, by decide, rfl⟩

/-- C10 (confirmed): the Pfeiffer TPG362 command phase raises IOError
exactly when the reply is NAK; any other reply, ACK or not, is accepted
(the unknown-response message in the source is never raised) and the
query proceeds to the data-read phase, returning the ENQ reply. -/
theorem tpg_nak_only (query : String → String) (nextRead cmd : String) :
    ((∃ e, TPG362.sendCommand query cmd = .error e) ↔ query cmd = TPG362.NAK) ∧
    (query cmd = TPG362.NAK →
      TPG362.sendCommand query cmd =
        .error (.ioErr "Serial communication returned negative acknowledge")) ∧
    (query cmd ≠ TPG362.NAK →
      TPG362.tpgQuery query nextRead cmd = .ok (query TPG362.ENQ)) := by
  unfold TPG362.tpgQuery TPG362.sendCommand
  by_cases h : query cmd = TPG362.NAK <;> simp [h, exBind]

/-- Witness for C10: a reply that is neither ACK nor NAK is accepted and
the data phase runs; a NAK reply raises IOError. -/
theorem tpg_nak_only_witness :
    TPG362.tpgQuery (fun _ => "x") "" "PR1" = .ok "x" ∧
    TPG362.sendCommand (fun _ => TPG362.NAK) "PR1" =
      .error (.ioErr "Serial communication returned negative acknowledge") :=
  ⟨(tpg_nak_only (fun _ => "x") "" "PR1").2.2 (by decide),
   (tpg_nak_only (fun _ => TPG362.NAK) "" "PR1").2.1 rfl⟩

end LabDevices
